import Mathlib

/-!
Verification of the offline-first synchronization core of the My-PWA-Naza
repository (`src/services/indexedDBService.ts`, `src/services/syncService.ts`,
`src/services/firestoreService.ts`).

Modelling conventions:
* The IndexedDB activity store is a list of `Activity` records keyed by `id`
  (`idbGet` / `idbPut` / `idbDelete` mirror `get` / `put` / `delete` of the
  `activities` object store).
* `Date.now()` and the random queue-operation ids are supplied as explicit
  `now : Nat` / `freshOpId : String` parameters.
* The Firestore adapter (`firestoreService`) is external: each of its three
  write operations is an oracle function supplied in an `AdapterEnv`.  A call
  either returns a value (`Except.ok`) or throws (`Except.error msg`); the
  `null` / `false` results of the TypeScript adapter are `Except.ok none` /
  `Except.ok false`.
* The optional TypeScript string field `firestoreId` is `Option String`
  (`none` = `undefined`); TypeScript truthiness tests on it are modelled as
  presence tests (Firestore document ids are non-empty strings).
* `syncService.addToSyncQueue` fires `syncPendingOperations()` without
  awaiting it when online and not already syncing; on the single-threaded
  event loop that drain runs as a separate task, so it is modelled as a
  separate step (`syncPendingOperations`) rather than inlined into the
  enqueue.  Operations enqueued by concurrent tasks while a drain pass is
  running are modelled by the `inject` schedule of `drainGo`.
-/

/-- `Activity.syncStatus` values: `'synced' | 'pending' | 'error'`. -/
inductive SyncStatus where
  | synced
  | pending
  | error
deriving DecidableEq, Repr

/-- The `Activity` interface of `indexedDBService.ts`.  The subject fields
(`studentName`, …, `status`) are opaque to the sync core and kept as strings. -/
structure Activity where
  id : String
  studentName : String
  subject : String
  activity : String
  description : String
  date : String
  status : String
  createdAt : Nat
  updatedAt : Nat
  firestoreId : Option String
  syncStatus : Option SyncStatus
  lastSyncAttempt : Option Nat
deriving DecidableEq, Repr

/-- Input of `addActivity`: `Omit<Activity, 'id' | 'createdAt' | 'updatedAt'>`.
`syncStatus` is carried but overwritten to `'pending'` by `addActivity`. -/
structure ActivityData where
  studentName : String
  subject : String
  activity : String
  description : String
  date : String
  status : String
  firestoreId : Option String
  syncStatus : Option SyncStatus
  lastSyncAttempt : Option Nat
deriving DecidableEq, Repr

/-- A partial update, `Partial<Omit<Activity, 'id' | 'createdAt'>>`: a field
that is `none` is an absent key (the existing value is kept by the object
spread in `indexedDBService.updateActivity`).  `lastSyncAttempt` is doubly
optional because `clearSyncErrors` passes the key with value `undefined`. -/
structure ActivityUpdate where
  studentName : Option String := none
  subject : Option String := none
  activity : Option String := none
  description : Option String := none
  date : Option String := none
  status : Option String := none
  firestoreId : Option String := none
  syncStatus : Option SyncStatus := none
  lastSyncAttempt : Option (Option Nat) := none
deriving DecidableEq, Repr

/-- The IndexedDB `activities` object store. -/
abbrev IDB : Type := List Activity

/-- `indexedDBService.getActivity` / `db.get('activities', id)`. -/
def idbGet (db : IDB) (id : String) : Option Activity :=
  List.find? (fun a => a.id == id) db

/-- `db.put('activities', a)`: overwrite the record with key `a.id`, or append. -/
def idbPut : IDB → Activity → IDB
  | [], a => [a]
  | b :: rest, a => if b.id == a.id then a :: rest else b :: idbPut rest a

/-- `indexedDBService.deleteActivity` / `db.delete('activities', id)`. -/
def idbDelete (db : IDB) (id : String) : IDB :=
  List.filter (fun a => a.id != id) db

/-- The record built by `indexedDBService.addActivity`: spread of the input,
then `id`/`createdAt`/`updatedAt` from `Date.now()` and `syncStatus` forced
to `'pending'`. -/
def mkNewActivity (d : ActivityData) (now : Nat) : Activity :=
  { id := toString now
    studentName := d.studentName
    subject := d.subject
    activity := d.activity
    description := d.description
    date := d.date
    status := d.status
    createdAt := now
    updatedAt := now
    firestoreId := d.firestoreId
    syncStatus := some SyncStatus.pending
    lastSyncAttempt := d.lastSyncAttempt }

/-- `db.add('activities', a)` rejects a duplicate key (returns `none` where
the TypeScript call throws). -/
def idbAdd (db : IDB) (a : Activity) : Option IDB :=
  match idbGet db a.id with
  | some _ => none
  | none => some (db ++ [a])

/-- `indexedDBService.addActivity`. -/
def addActivity (db : IDB) (d : ActivityData) (now : Nat) :
    Option (Activity × IDB) :=
  match idbAdd db (mkNewActivity d now) with
  | some db' => some (mkNewActivity d now, db')
  | none => none

/-- The object spread `{...existingActivity, ...updates, updatedAt: Date.now()}`
of `indexedDBService.updateActivity`. -/
def mergeActivity (a : Activity) (u : ActivityUpdate) (now : Nat) : Activity :=
  { id := a.id
    studentName := u.studentName.getD a.studentName
    subject := u.subject.getD a.subject
    activity := u.activity.getD a.activity
    description := u.description.getD a.description
    date := u.date.getD a.date
    status := u.status.getD a.status
    createdAt := a.createdAt
    updatedAt := now
    firestoreId := match u.firestoreId with
      | some f => some f
      | none => a.firestoreId
    syncStatus := match u.syncStatus with
      | some st => some st
      | none => a.syncStatus
    lastSyncAttempt := match u.lastSyncAttempt with
      | some v => v
      | none => a.lastSyncAttempt }

/-- `indexedDBService.updateActivity`: `none` models the thrown
`Actividad con ID ... no encontrada` error. -/
def idbUpdateActivity (db : IDB) (id : String) (u : ActivityUpdate)
    (now : Nat) : Option (Activity × IDB) :=
  match idbGet db id with
  | none => none
  | some a => some (mergeActivity a u now, idbPut db (mergeActivity a u now))

/-- `indexedDBService.markAsSynced` (defined in the source, but never called
by `syncService`). -/
def markAsSynced (db : IDB) (id : String) (firestoreId : String) (now : Nat) :
    Option (Activity × IDB) :=
  idbUpdateActivity db id
    { firestoreId := some firestoreId
      syncStatus := some SyncStatus.synced
      lastSyncAttempt := some (some now) } now

/-- `indexedDBService.markSyncError` (defined in the source, but never called
by `syncService`). -/
def markSyncError (db : IDB) (id : String) (now : Nat) :
    Option (Activity × IDB) :=
  idbUpdateActivity db id
    { syncStatus := some SyncStatus.error
      lastSyncAttempt := some (some now) } now

/-- `SyncOperation.type` values: `'create' | 'update' | 'delete'`. -/
inductive OpType where
  | create
  | update
  | delete
deriving DecidableEq, Repr

/-- The `SyncOperation` interface of `syncService.ts`. -/
structure SyncOp where
  id : String
  type : OpType
  activityId : String
  activityData : Option Activity
  firestoreId : Option String
  timestamp : Nat
  attempts : Nat
  lastError : Option String
deriving DecidableEq, Repr

/-- The `SyncResult` interface of `syncService.ts`. -/
structure SyncResult where
  success : Bool
  syncedCount : Nat
  failedCount : Nat
  errors : List String
deriving DecidableEq, Repr

/-- Combined system state: the `SyncService` fields (`syncQueue`, `isSyncing`,
`maxRetries`), the IndexedDB store shared through `indexedDBService`, and
`navigator.onLine`. -/
structure SysState where
  syncQueue : List SyncOp
  isSyncing : Bool
  maxRetries : Nat
  db : IDB
  online : Bool
deriving DecidableEq, Repr

/-- Result of one Firestore adapter invocation that may throw:
`Except.error msg` models a thrown exception. -/
abbrev AdapterResult (α : Type) : Type := Except String α

/-- Oracle for the three `firestoreService` write operations consumed by the
sync core (`createActivity`, `updateActivity`, `deleteActivity`). -/
structure AdapterEnv where
  createA : Activity → AdapterResult (Option String)
  updateA : String → Activity → AdapterResult Bool
  deleteA : String → AdapterResult Bool

/-- Observable trace entry: one call into the Firestore adapter. -/
inductive AdapterCall where
  | createCall (a : Activity)
  | updateCall (firestoreId : String) (a : Activity)
  | deleteCall (firestoreId : String)
deriving DecidableEq, Repr

/-- `syncService.addToSyncQueue` minus the fire-and-forget drain trigger
(see the module docstring): builds the operation with `attempts := 0` and
pushes it at the end of the queue. -/
def addToSyncQueue (s : SysState) (t : OpType) (activityId : String)
    (activityData : Option Activity) (firestoreId : Option String)
    (freshOpId : String) (now : Nat) : SysState :=
  { s with syncQueue := s.syncQueue ++
      [{ id := freshOpId
         type := t
         activityId := activityId
         activityData := activityData
         firestoreId := firestoreId
         timestamp := now
         attempts := 0
         lastError := none }] }

/-- `syncService.createActivity`.  Returns `none` when the initial
`indexedDBService.addActivity` (or the follow-up `updateActivity` on the
just-created record) throws; otherwise the returned local record, the new
state, and the adapter calls made. -/
def createActivitySvc (s : SysState) (d : ActivityData) (now : Nat)
    (freshOpId : String) (env : AdapterEnv) :
    Option (Activity × SysState × List AdapterCall) :=
  match addActivity s.db d now with
  | none => none
  | some (localActivity, db1) =>
    if s.online then
      match env.createA localActivity with
      | Except.ok (some fid) =>
        match idbUpdateActivity db1 localActivity.id
            { firestoreId := some fid } now with
        | some (updatedActivity, db2) =>
          some (updatedActivity, { s with db := db2 },
            [AdapterCall.createCall localActivity])
        | none => none
      | Except.ok none =>
        some (localActivity,
          addToSyncQueue { s with db := db1 } OpType.create localActivity.id
            (some localActivity) none freshOpId now,
          [AdapterCall.createCall localActivity])
      | Except.error _ =>
        some (localActivity,
          addToSyncQueue { s with db := db1 } OpType.create localActivity.id
            (some localActivity) none freshOpId now,
          [AdapterCall.createCall localActivity])
    else
      some (localActivity,
        addToSyncQueue { s with db := db1 } OpType.create localActivity.id
          (some localActivity) none freshOpId now, [])

/-- `syncService.updateActivity`.  Returns `none` when the local
`indexedDBService.updateActivity` throws (`NotFound`). -/
def updateActivitySvc (s : SysState) (id : String) (u : ActivityUpdate)
    (now : Nat) (freshOpId : String) (env : AdapterEnv) :
    Option (Activity × SysState × List AdapterCall) :=
  match idbUpdateActivity s.db id u now with
  | none => none
  | some (updatedActivity, db1) =>
    if s.online then
      match updatedActivity.firestoreId with
      | some fid =>
        match env.updateA fid updatedActivity with
        | Except.ok true =>
          some (updatedActivity, { s with db := db1 },
            [AdapterCall.updateCall fid updatedActivity])
        | Except.ok false =>
          some (updatedActivity,
            addToSyncQueue { s with db := db1 } OpType.update id
              (some updatedActivity) (some fid) freshOpId now,
            [AdapterCall.updateCall fid updatedActivity])
        | Except.error _ =>
          some (updatedActivity,
            addToSyncQueue { s with db := db1 } OpType.update id
              (some updatedActivity) (some fid) freshOpId now,
            [AdapterCall.updateCall fid updatedActivity])
      | none =>
        some (updatedActivity,
          addToSyncQueue { s with db := db1 } OpType.create id
            (some updatedActivity) none freshOpId now, [])
    else
      some (updatedActivity,
        addToSyncQueue { s with db := db1 }
          (if updatedActivity.firestoreId.isSome then OpType.update
            else OpType.create)
          id (some updatedActivity) updatedActivity.firestoreId freshOpId now,
        [])

/-- `syncService.deleteActivity`: optional immediate remote delete or enqueue,
then the unconditional local `indexedDBService.deleteActivity`. -/
def deleteActivitySvc (s : SysState) (id : String) (now : Nat)
    (freshOpId : String) (env : AdapterEnv) : SysState × List AdapterCall :=
  let fid? := (idbGet s.db id).bind (fun a => a.firestoreId)
  let step :=
    match s.online, fid? with
    | true, some fid =>
      match env.deleteA fid with
      | Except.ok true => (s, [AdapterCall.deleteCall fid])
      | Except.ok false =>
        (addToSyncQueue s OpType.delete id none (some fid) freshOpId now,
          [AdapterCall.deleteCall fid])
      | Except.error _ =>
        (addToSyncQueue s OpType.delete id none (some fid) freshOpId now,
          [AdapterCall.deleteCall fid])
    | false, some fid =>
      (addToSyncQueue s OpType.delete id none (some fid) freshOpId now, [])
    | _, none => (s, [])
  ({ step.1 with db := idbDelete step.1.db id }, step.2)

/-- Outcome of `processSyncOperation`: the returned boolean, or a thrown
exception caught by the drain loop. -/
inductive ProcResult where
  | ok (b : Bool)
  | thrown (msg : String)
deriving DecidableEq, Repr

/-- Render an `OpType` as it appears interpolated into the Spanish error
strings of `syncService.ts`. -/
def opTypeStr : OpType → String
  | OpType.create => "create"
  | OpType.update => "update"
  | OpType.delete => "delete"

/-- `syncService.processSyncOperation`: dispatch one queued operation to the
Firestore adapter; for a successful `create`, write the returned remote id
back into IndexedDB.  Returns the outcome, the resulting IndexedDB state and
the adapter calls performed. -/
def processSyncOperation (db : IDB) (op : SyncOp) (env : AdapterEnv)
    (now : Nat) : ProcResult × IDB × List AdapterCall :=
  match op.type with
  | OpType.create =>
    match op.activityData with
    | some a =>
      match env.createA a with
      | Except.ok (some fid) =>
        match idbUpdateActivity db op.activityId
            { firestoreId := some fid } now with
        | some (_, db') => (ProcResult.ok true, db', [AdapterCall.createCall a])
        | none =>
          (ProcResult.thrown
            ("Actividad con ID " ++ op.activityId ++ " no encontrada"),
            db, [AdapterCall.createCall a])
      | Except.ok none => (ProcResult.ok false, db, [AdapterCall.createCall a])
      | Except.error m => (ProcResult.thrown m, db, [AdapterCall.createCall a])
    | none => (ProcResult.ok false, db, [])
  | OpType.update =>
    match op.firestoreId, op.activityData with
    | some fid, some a =>
      match env.updateA fid a with
      | Except.ok b => (ProcResult.ok b, db, [AdapterCall.updateCall fid a])
      | Except.error m =>
        (ProcResult.thrown m, db, [AdapterCall.updateCall fid a])
    | _, _ => (ProcResult.ok false, db, [])
  | OpType.delete =>
    match op.firestoreId with
    | some fid =>
      match env.deleteA fid with
      | Except.ok b => (ProcResult.ok b, db, [AdapterCall.deleteCall fid])
      | Except.error m =>
        (ProcResult.thrown m, db, [AdapterCall.deleteCall fid])
    | none => (ProcResult.ok false, db, [])

/-- Accumulated state of the drain loop of `syncPendingOperations`:
the live queue, the IndexedDB state, the aggregate result, the adapter-call
trace, and the ids of operations dispatched so far (in dispatch order). -/
structure DrainState where
  queue : List SyncOp
  db : IDB
  res : SyncResult
  calls : List AdapterCall
  dispatched : List String

/-- One iteration of the drain loop for operation `op`: success removes the
operation from the live queue; failure increments its attempt counter
(the counter mutation is visible in the live queue because the snapshot
shares the operation object), evicting it once `maxRetries` is reached. -/
def drainStep (mr : Nat) (env : AdapterEnv) (now : Nat) (op : SyncOp)
    (st : DrainState) : DrainState :=
  match processSyncOperation st.db op env now with
  | (ProcResult.ok true, db', cs) =>
    { queue := st.queue.filter (fun o => o.id != op.id)
      db := db'
      res := { st.res with syncedCount := st.res.syncedCount + 1 }
      calls := st.calls ++ cs
      dispatched := st.dispatched ++ [op.id] }
  | (ProcResult.ok false, db', cs) =>
    if op.attempts + 1 ≥ mr then
      { queue := st.queue.filter (fun o => o.id != op.id)
        db := db'
        res := { st.res with
          failedCount := st.res.failedCount + 1
          errors := st.res.errors ++
            ["Operación " ++ opTypeStr op.type ++ " falló después de " ++
              toString mr ++ " intentos"] }
        calls := st.calls ++ cs
        dispatched := st.dispatched ++ [op.id] }
    else
      { queue := st.queue.map (fun o => if o.id == op.id then
          { op with attempts := op.attempts + 1
                    lastError := some "Operación falló" } else o)
        db := db'
        res := st.res
        calls := st.calls ++ cs
        dispatched := st.dispatched ++ [op.id] }
  | (ProcResult.thrown m, db', cs) =>
    if op.attempts + 1 ≥ mr then
      { queue := st.queue.filter (fun o => o.id != op.id)
        db := db'
        res := { st.res with
          failedCount := st.res.failedCount + 1
          errors := st.res.errors ++
            ["Error en operación " ++ opTypeStr op.type ++ ": " ++ m] }
        calls := st.calls ++ cs
        dispatched := st.dispatched ++ [op.id] }
    else
      { queue := st.queue.map (fun o => if o.id == op.id then
          { op with attempts := op.attempts + 1, lastError := some m } else o)
        db := db'
        res := st.res
        calls := st.calls ++ cs
        dispatched := st.dispatched ++ [op.id] }

/-- The drain loop over the snapshot `operationsToProcess`.  `inject k` is the
list of operations appended to the live queue by concurrent producers right
after the `k`-th iteration (they are not part of the snapshot being
iterated). -/
def drainGo (mr : Nat) (env : AdapterEnv) (now : Nat)
    (inject : Nat → List SyncOp) :
    List SyncOp → Nat → DrainState → DrainState
  | [], _, st => st
  | op :: rest, k, st =>
    let st' := drainStep mr env now op st
    drainGo mr env now inject rest (k + 1)
      { st' with queue := st'.queue ++ inject k }

/-- The drain loop of `syncService.syncPendingOperations`, started on the
snapshot `operationsToProcess := [...this.syncQueue]`. -/
def drainPass (s : SysState) (env : AdapterEnv) (now : Nat)
    (inject : Nat → List SyncOp) : DrainState :=
  drainGo s.maxRetries env now inject s.syncQueue 0
    { queue := s.syncQueue
      db := s.db
      res := { success := true, syncedCount := 0, failedCount := 0,
               errors := [] }
      calls := []
      dispatched := [] }

/-- `syncService.syncPendingOperations`: guarded no-op when already syncing,
offline, or the queue is empty; otherwise one full drain pass over a snapshot
of the queue (`drainPass`), with `success` cleared when any operation failed
permanently.  Returns the `SyncResult`, the new system state, the adapter
calls made, and the ids of the dispatched operations in dispatch order. -/
def syncPendingOperations (s : SysState) (env : AdapterEnv) (now : Nat)
    (inject : Nat → List SyncOp) :
    SyncResult × SysState × List AdapterCall × List String :=
  if s.isSyncing || !s.online || s.syncQueue.isEmpty then
    ({ success := true, syncedCount := 0, failedCount := 0, errors := [] },
      s, [], [])
  else
    ((if (drainPass s env now inject).res.failedCount > 0 then
        { (drainPass s env now inject).res with success := false }
      else (drainPass s env now inject).res),
     { s with syncQueue := (drainPass s env now inject).queue
              db := (drainPass s env now inject).db
              isSyncing := false },
     (drainPass s env now inject).calls,
     (drainPass s env now inject).dispatched)

/-- `syncService.loadSyncQueue`: the persisted queue is `none` when
`localStorage.getItem('syncQueue')` is `null`; otherwise the outcome of
`JSON.parse` (`Except.error` models a thrown parse error, which resets the
queue to empty). -/
def loadSyncQueue (saved : Option (Except String (List SyncOp))) :
    List SyncOp :=
  match saved with
  | none => []
  | some (Except.ok q) => q
  | some (Except.error _) => []

/-- The `SyncService` constructor: load the persisted queue and start with
`isSyncing := false`, `maxRetries := 3`, over an already-initialized
IndexedDB store. -/
def initSyncService (saved : Option (Except String (List SyncOp)))
    (db : IDB) (online : Bool) : SysState :=
  { syncQueue := loadSyncQueue saved
    isSyncing := false
    maxRetries := 3
    db := db
    online := online }

/-! Concrete sample values used by witnesses and counterexamples. -/

/-- Sample create input (the spec's §8 scenario). -/
def sampleData : ActivityData :=
  { studentName := "Ana", subject := "Math", activity := "Quiz",
    description := "", date := "2024-01-01", status := "pendiente",
    firestoreId := none, syncStatus := none, lastSyncAttempt := none }

/-- A local record that was never synced (no remote id, sync state pending). -/
def actPending : Activity :=
  { id := "a1", studentName := "Ana", subject := "Math", activity := "Quiz",
    description := "", date := "2024-01-01", status := "pendiente",
    createdAt := 1, updatedAt := 1, firestoreId := none,
    syncStatus := some SyncStatus.pending, lastSyncAttempt := none }

/-- A local record already carrying remote id `"r1"` and sync state synced. -/
def actSynced : Activity :=
  { actPending with firestoreId := some "r1",
                    syncStatus := some SyncStatus.synced }

/-- Adapter whose create returns remote id `"r1"` and whose writes succeed. -/
def envCreateR1 : AdapterEnv :=
  { createA := fun _ => Except.ok (some "r1")
    updateA := fun _ _ => Except.ok true
    deleteA := fun _ => Except.ok true }

/-- Adapter whose create returns remote id `"r2"` and whose writes succeed. -/
def envCreateR2 : AdapterEnv :=
  { createA := fun _ => Except.ok (some "r2")
    updateA := fun _ _ => Except.ok true
    deleteA := fun _ => Except.ok true }

/-- Adapter for which every write reports failure (`null` / `false`). -/
def envAllFail : AdapterEnv :=
  { createA := fun _ => Except.ok none
    updateA := fun _ _ => Except.ok false
    deleteA := fun _ => Except.ok false }

/-- A queued `delete` of remote id `"r1"` that has already failed twice. -/
def opDelTwo : SyncOp :=
  { id := "q1", type := OpType.delete, activityId := "a1",
    activityData := none, firestoreId := some "r1", timestamp := 1,
    attempts := 2, lastError := none }

/-- A freshly queued `delete` of remote id `"r1"` (no failed attempts yet). -/
def opDelZero : SyncOp :=
  { opDelTwo with attempts := 0 }

/-- A queued `create` carrying a snapshot of `actPending`. -/
def opCreateA1 : SyncOp :=
  { id := "q2", type := OpType.create, activityId := "a1",
    activityData := some actPending, firestoreId := none, timestamp := 1,
    attempts := 0, lastError := none }


/-- Idle online state: empty queue, empty store. -/
def sIdle : SysState :=
  { syncQueue := [], isSyncing := false, maxRetries := 3, db := [],
    online := true }

/-- Online state holding only the never-synced record `actPending`. -/
def sLocalOnly : SysState :=
  { syncQueue := [], isSyncing := false, maxRetries := 3, db := [actPending],
    online := true }

/-- Offline state holding only the already-synced record `actSynced`. -/
def sSyncedOffline : SysState :=
  { syncQueue := [], isSyncing := false, maxRetries := 3, db := [actSynced],
    online := false }

/-- Online state whose queue holds `opDelTwo` (two failed attempts already). -/
def sRetryTwo : SysState :=
  { syncQueue := [opDelTwo], isSyncing := false, maxRetries := 3,
    db := [actPending], online := true }

/-- Online state whose queue holds the fresh operation `opDelZero`. -/
def sRetryZero : SysState :=
  { syncQueue := [opDelZero], isSyncing := false, maxRetries := 3,
    db := [actPending], online := true }

/-- A partial update touching only the user-visible status field. -/
def uStatus : ActivityUpdate :=
  { status := some "completada" }

/-! Helper lemmas about the local store. -/

theorem idbGet_idbDelete_self (db : IDB) (id : String) :
    idbGet (idbDelete db id) id = none := by
  induction db with
  | nil => rfl
  | cons b rest ih =>
    by_cases hb : b.id = id
    · simp only [idbDelete, idbGet, List.filter_cons, hb] at ih ⊢
      simp only [bne_self_eq_false, Bool.false_eq_true, if_false]
      exact ih
    · simp only [idbDelete, idbGet, List.filter_cons, List.find?_cons] at ih ⊢
      have hbne : (b.id != id) = true := by simp [bne, hb]
      have hbeq : (b.id == id) = false := by simp [hb]
      rw [hbne]
      simp only [if_true, List.find?_cons, hbeq]
      exact ih

theorem idbGet_idbPut_ne (db : IDB) (a : Activity) (j : String)
    (h : ¬a.id = j) : idbGet (idbPut db a) j = idbGet db j := by
  have haj : (a.id == j) = false := by simp [h]
  induction db with
  | nil => simp [idbPut, idbGet, List.find?, haj]
  | cons b rest ih =>
    by_cases hb : b.id = a.id
    · have hba : (b.id == a.id) = true := by simp [hb]
      have hbj : (b.id == j) = false := by simp [hb, h]
      simp only [idbPut, hba, if_true, idbGet, List.find?_cons, haj, hbj]
    · have hba : (b.id == a.id) = false := by simp [hb]
      simp only [idbPut, hba, Bool.false_eq_true, if_false, idbGet,
        List.find?_cons]
      cases hbj : (b.id == j) with
      | true => rfl
      | false => simpa [idbGet] using ih

theorem idbGet_idbPut_self (db : IDB) (a b : Activity)
    (h : idbGet db a.id = some b) : idbGet (idbPut db a) a.id = some a := by
  induction db with
  | nil => simp [idbGet, List.find?] at h
  | cons c rest ih =>
    by_cases hc : c.id = a.id
    · have hca : (c.id == a.id) = true := by simp [hc]
      simp only [idbPut, hca, if_true, idbGet, List.find?_cons,
        beq_self_eq_true]
    · have hca : (c.id == a.id) = false := by simp [hc]
      simp only [idbGet, List.find?_cons, hca] at h
      simp only [idbPut, hca, Bool.false_eq_true, if_false, idbGet,
        List.find?_cons]
      simpa [idbGet] using ih h

theorem idbGet_id (db : IDB) (id : String) (a : Activity)
    (h : idbGet db id = some a) : a.id = id := by
  unfold idbGet at h
  simpa using List.find?_some h

theorem idbGet_append_single (db : IDB) (a : Activity)
    (h : idbGet db a.id = none) : idbGet (db ++ [a]) a.id = some a := by
  unfold idbGet at h ⊢
  rw [List.find?_append, h]
  simp [List.find?]

theorem idbUpdateActivity_inv (db : IDB) (id : String) (u : ActivityUpdate)
    (now : Nat) (a' : Activity) (db' : IDB)
    (h : idbUpdateActivity db id u now = some (a', db')) :
    ∃ a, idbGet db id = some a ∧ a' = mergeActivity a u now ∧
      db' = idbPut db (mergeActivity a u now) := by
  unfold idbUpdateActivity at h
  cases hg : idbGet db id with
  | none => rw [hg] at h; exact absurd h (by simp)
  | some a =>
    rw [hg] at h
    refine ⟨a, rfl, ?_, ?_⟩
    · exact (Prod.mk.injEq .. ▸ Option.some.injEq .. ▸ h).1.symm
    · exact (Prod.mk.injEq .. ▸ Option.some.injEq .. ▸ h).2.symm

theorem mergeActivity_syncStatus_of_none (a : Activity) (u : ActivityUpdate)
    (now : Nat) (hu : u.syncStatus = none) :
    (mergeActivity a u now).syncStatus = a.syncStatus := by
  simp [mergeActivity, hu]

theorem idbUpdateActivity_syncStatus (db : IDB) (id : String)
    (u : ActivityUpdate) (now : Nat) (a' : Activity) (db' : IDB)
    (h : idbUpdateActivity db id u now = some (a', db'))
    (hu : u.syncStatus = none) (j : String) :
    (idbGet db' j).map (fun a => a.syncStatus) =
      (idbGet db j).map (fun a => a.syncStatus) := by
  obtain ⟨a, hg, _, hdb'⟩ := idbUpdateActivity_inv db id u now a' db' h
  have haid : a.id = id := idbGet_id db id a hg
  have hmid : (mergeActivity a u now).id = a.id := rfl
  subst hdb'
  by_cases hj : id = j
  · subst hj
    have h2 : idbGet (idbPut db (mergeActivity a u now)) id =
        some (mergeActivity a u now) := by
      have := idbGet_idbPut_self db (mergeActivity a u now) a
        (by rw [hmid, haid]; exact hg)
      rwa [hmid, haid] at this
    rw [h2, hg]
    simp [mergeActivity_syncStatus_of_none a u now hu]
  · rw [idbGet_idbPut_ne db _ j (by rw [hmid, haid]; exact hj)]

/-! Helper lemmas about the drain loop. -/

theorem drainStep_dispatched (mr : Nat) (env : AdapterEnv) (now : Nat)
    (op : SyncOp) (st : DrainState) :
    (drainStep mr env now op st).dispatched = st.dispatched ++ [op.id] := by
  unfold drainStep
  split <;> first | rfl | (split <;> rfl)

theorem drainStep_success (mr : Nat) (env : AdapterEnv) (now : Nat)
    (op : SyncOp) (st : DrainState) :
    (drainStep mr env now op st).res.success = st.res.success := by
  unfold drainStep
  split <;> first | rfl | (split <;> rfl)

theorem processSyncOperation_db_of_not_ok (db : IDB) (op : SyncOp)
    (env : AdapterEnv) (now : Nat)
    (h : (processSyncOperation db op env now).1 ≠ ProcResult.ok true) :
    (processSyncOperation db op env now).2.1 = db := by
  unfold processSyncOperation at *
  split at h <;> first
    | rfl
    | (split at h <;> first
        | rfl
        | (split at h <;> first
            | rfl
            | (split at h <;> first | rfl | (exact absurd rfl h))))

theorem drainStep_fail_below (mr : Nat) (env : AdapterEnv) (now : Nat)
    (op : SyncOp) (st : DrainState)
    (hf : (processSyncOperation st.db op env now).1 ≠ ProcResult.ok true)
    (hb : op.attempts + 1 < mr) :
    (drainStep mr env now op st).res = st.res ∧
      (drainStep mr env now op st).db = st.db := by
  have hdb := processSyncOperation_db_of_not_ok st.db op env now hf
  rcases hp : processSyncOperation st.db op env now with ⟨pr, db2, cs⟩
  rw [hp] at hdb
  rcases pr with b | m
  · cases b
    · simp only [drainStep, hp]
      rw [if_neg (by omega)]
      exact ⟨rfl, hdb⟩
    · rw [hp] at hf
      exact absurd rfl hf
  · simp only [drainStep, hp]
    rw [if_neg (by omega)]
    exact ⟨rfl, hdb⟩

theorem drainStep_fail_at_max (mr : Nat) (env : AdapterEnv) (now : Nat)
    (op : SyncOp) (st : DrainState)
    (hf : (processSyncOperation st.db op env now).1 ≠ ProcResult.ok true)
    (hm : op.attempts + 1 ≥ mr) :
    (drainStep mr env now op st).queue =
        st.queue.filter (fun o => o.id != op.id) ∧
      (drainStep mr env now op st).db = st.db ∧
      (drainStep mr env now op st).res.failedCount =
        st.res.failedCount + 1 ∧
      (drainStep mr env now op st).res.syncedCount = st.res.syncedCount := by
  have hdb := processSyncOperation_db_of_not_ok st.db op env now hf
  rcases hp : processSyncOperation st.db op env now with ⟨pr, db2, cs⟩
  rw [hp] at hdb
  rcases pr with b | m
  · cases b
    · simp only [drainStep, hp]
      rw [if_pos hm]
      exact ⟨rfl, hdb, rfl, rfl⟩
    · rw [hp] at hf
      exact absurd rfl hf
  · simp only [drainStep, hp]
    rw [if_pos hm]
    exact ⟨rfl, hdb, rfl, rfl⟩

theorem drainStep_queue_ids_filter_sublist (mr : Nat) (env : AdapterEnv)
    (now : Nat) (op : SyncOp) (st : DrainState) (p : String → Bool) :
    List.Sublist
      ((((drainStep mr env now op st).queue).map (fun o => o.id)).filter p)
      ((st.queue.map (fun o => o.id)).filter p) := by
  have hfil : List.Sublist
      (((st.queue.filter (fun o => o.id != op.id)).map
        (fun o => o.id)).filter p)
      ((st.queue.map (fun o => o.id)).filter p) :=
    ((List.filter_sublist st.queue).map _).filter _
  have hmap : ∀ op' : SyncOp, op'.id = op.id →
      ((st.queue.map (fun o => if o.id == op.id then op' else o)).map
        (fun o => o.id)) = st.queue.map (fun o => o.id) := by
    intro op' hid
    rw [List.map_map]
    refine List.map_congr_left ?_
    intro o _
    simp only [Function.comp]
    by_cases h : o.id = op.id
    · simp [h, hid]
    · simp [h]
  unfold drainStep
  split
  · exact hfil
  · split
    · exact hfil
    · dsimp only
      rw [hmap { op with attempts := op.attempts + 1,
                         lastError := some "Operación falló" } rfl]
  · rename_i m db' cs heq
    split
    · exact hfil
    · dsimp only
      rw [hmap { op with attempts := op.attempts + 1,
                         lastError := some m } rfl]

theorem drainGo_dispatched (mr : Nat) (env : AdapterEnv) (now : Nat)
    (inject : Nat → List SyncOp) (pending : List SyncOp) :
    ∀ (k : Nat) (st : DrainState),
    (drainGo mr env now inject pending k st).dispatched =
      st.dispatched ++ pending.map (fun o => o.id) := by
  induction pending with
  | nil => intro k st; simp [drainGo]
  | cons op rest ih =>
    intro k st
    simp only [drainGo]
    rw [ih]
    simp [drainStep_dispatched]

theorem drainGo_success (mr : Nat) (env : AdapterEnv) (now : Nat)
    (inject : Nat → List SyncOp) (pending : List SyncOp) :
    ∀ (k : Nat) (st : DrainState),
    (drainGo mr env now inject pending k st).res.success =
      st.res.success := by
  induction pending with
  | nil => intro k st; rfl
  | cons op rest ih =>
    intro k st
    simp only [drainGo]
    rw [ih]
    exact drainStep_success mr env now op st

theorem drainGo_queue_ids_filter_sublist (mr : Nat) (env : AdapterEnv)
    (now : Nat) (inject : Nat → List SyncOp) (p : String → Bool)
    (hinj : ∀ k op', op' ∈ inject k → p op'.id = false)
    (pending : List SyncOp) :
    ∀ (k : Nat) (st : DrainState),
    List.Sublist
      ((((drainGo mr env now inject pending k st).queue).map
        (fun o => o.id)).filter p)
      ((st.queue.map (fun o => o.id)).filter p) := by
  induction pending with
  | nil => intro k st; exact List.Sublist.refl _
  | cons op rest ih =>
    intro k st
    simp only [drainGo]
    refine List.Sublist.trans (ih (k + 1) _) ?_
    have hnil : ((inject k).map (fun o => o.id)).filter p = [] := by
      rw [List.filter_eq_nil_iff]
      intro x hx
      obtain ⟨o, ho, rfl⟩ := List.mem_map.mp hx
      simp [hinj k o ho]
    simp only [List.map_append, List.filter_append, hnil, List.append_nil]
    exact drainStep_queue_ids_filter_sublist mr env now op st p

theorem drainGo_all_fail (mr : Nat) (env : AdapterEnv) (now : Nat)
    (inject : Nat → List SyncOp) (D : IDB) (pending : List SyncOp) :
    ∀ (k : Nat) (st : DrainState), st.db = D →
    (∀ op ∈ pending,
      (processSyncOperation D op env now).1 ≠ ProcResult.ok true ∧
        op.attempts + 1 < mr) →
    (drainGo mr env now inject pending k st).res = st.res ∧
      (drainGo mr env now inject pending k st).db = D := by
  induction pending with
  | nil => intro k st hdb _; exact ⟨rfl, hdb⟩
  | cons op rest ih =>
    intro k st hdb hall
    have hop := hall op (List.mem_cons_self op rest)
    have hf : (processSyncOperation st.db op env now).1 ≠
        ProcResult.ok true := by
      rw [hdb]; exact hop.1
    obtain ⟨hres, hdb2⟩ := drainStep_fail_below mr env now op st hf hop.2
    simp only [drainGo]
    have hrest := ih (k + 1)
      { drainStep mr env now op st with
        queue := (drainStep mr env now op st).queue ++ inject k }
      (by simpa [hdb2] using hdb)
      (fun o ho => hall o (List.mem_cons_of_mem op ho))
    refine ⟨?_, hrest.2⟩
    rw [hrest.1]
    simpa using hres

/-! Claim theorems. -/

/-- Claim C8: a drain request arriving while a pass is in flight
(`isSyncing`), or while offline, or with an empty queue, is a no-op: it
performs zero adapter calls and returns `{success: true, syncedCount: 0,
failedCount: 0}` with the state untouched. -/
theorem c8_drain_noop (s : SysState) (env : AdapterEnv) (now : Nat)
    (inject : Nat → List SyncOp)
    (h : s.isSyncing = true ∨ s.online = false ∨ s.syncQueue = []) :
    syncPendingOperations s env now inject =
      ({ success := true, syncedCount := 0, failedCount := 0, errors := [] },
        s, [], []) := by
  unfold syncPendingOperations
  have hg : (s.isSyncing || !s.online || s.syncQueue.isEmpty) = true := by
    rcases h with h | h | h <;> simp [h]
  rw [if_pos hg]

/-- Witness for C8 at a concrete idle state (empty queue). -/
theorem c8_witness :
    (sIdle.isSyncing = true ∨ sIdle.online = false ∨ sIdle.syncQueue = []) ∧
      syncPendingOperations sIdle envAllFail 7 (fun _ => []) =
        ({ success := true, syncedCount := 0, failedCount := 0,
           errors := [] }, sIdle, [], []) :=
  ⟨Or.inr (Or.inr rfl),
    c8_drain_noop sIdle envAllFail 7 (fun _ => []) (Or.inr (Or.inr rfl))⟩

/-- Claim C7 counterexample: with a corrupt persisted queue and a store
holding the pending record `"a1"`, initialization yields an empty queue —
the pending record is *not* re-enqueued by any recovery sweep. -/
theorem c7_counterexample :
    (initSyncService (some (Except.error "SyntaxError: Unexpected token"))
        [actPending] true).syncQueue = [] ∧
      (idbGet (initSyncService
          (some (Except.error "SyntaxError: Unexpected token"))
          [actPending] true).db "a1").map (fun a => a.syncStatus) =
        some (some SyncStatus.pending) := by
  exact ⟨rfl, rfl⟩

/-- Claim C7 (amended): initialization never crashes on a corrupt persisted
queue — the queue resets to empty — but no recovery sweep exists: the
initialized queue is independent of the store's contents, so records with
sync state pending that are absent from the queue stay absent. -/
theorem c7_init_resets_and_no_recovery_sweep :
    (∀ (m : String) (db : IDB) (online : Bool),
      (initSyncService (some (Except.error m)) db online).syncQueue = []) ∧
    (∀ (saved : Option (Except String (List SyncOp))) (db₁ db₂ : IDB)
        (o₁ o₂ : Bool),
      (initSyncService saved db₁ o₁).syncQueue =
        (initSyncService saved db₂ o₂).syncQueue) :=
  ⟨fun _ _ _ => rfl, fun _ _ _ _ _ => rfl⟩

/-- Claim C4 counterexample: the store's record `"a1"` already carries remote
id `"r1"`, yet draining a queued `create` for it still dispatches
`adapter.create` (the call trace is non-empty) and overwrites the remote id
with the newly returned `"r2"` — dispatch is not skipped. -/
theorem c4_counterexample :
    (processSyncOperation [actSynced] opCreateA1 envCreateR2 10).2.2 =
        [AdapterCall.createCall actPending] ∧
      (idbGet (processSyncOperation [actSynced] opCreateA1 envCreateR2 10).2.1
          "a1").map (fun a => a.firestoreId) = some (some "r2") := by
  exact ⟨rfl, rfl⟩

/-- Claim C4 (amended): no pre-dispatch check exists — a queued `create`
carrying snapshot content always performs exactly the `adapter.create` call,
whatever the Local Durable Store currently records for the referenced id, so
a re-drain re-issues the create. -/
theorem c4_create_dispatch_unconditional (db : IDB) (op : SyncOp)
    (env : AdapterEnv) (now : Nat) (a : Activity)
    (ht : op.type = OpType.create) (ha : op.activityData = some a) :
    (processSyncOperation db op env now).2.2 = [AdapterCall.createCall a] := by
  simp only [processSyncOperation, ht, ha]
  split <;> first | rfl | (split <;> rfl)

/-- Witness for C4 (amended) at a store whose record has no remote id yet. -/
theorem c4_witness :
    opCreateA1.type = OpType.create ∧
      opCreateA1.activityData = some actPending ∧
      (processSyncOperation [actPending] opCreateA1 envCreateR1 10).2.2 =
        [AdapterCall.createCall actPending] :=
  ⟨rfl, rfl,
    c4_create_dispatch_unconditional [actPending] opCreateA1 envCreateR1 10
      actPending rfl rfl⟩

/-- Claim C1: the spec requires a remotely-successful create to stamp the
local record with the remote id *and* sync state synced.  The code stamps
only the remote id (`updateActivity(id, { firestoreId })`; `markAsSynced` is
never called): after an immediate successful create, and after a successful
queued create during a drain pass, the record's sync state is still pending. -/
theorem c1_remote_create_leaves_syncStatus_pending :
    ((createActivitySvc sIdle sampleData 5 "q9" envCreateR1).map
        (fun r => (r.1.firestoreId, r.1.syncStatus)) =
      some (some "r1", some SyncStatus.pending)) ∧
    ((createActivitySvc sIdle sampleData 5 "q9" envCreateR1).map
        (fun r => r.1.syncStatus) ≠ some (some SyncStatus.synced)) ∧
    ((processSyncOperation [actPending] opCreateA1 envCreateR1 10).1 =
      ProcResult.ok true) ∧
    ((idbGet (processSyncOperation [actPending] opCreateA1 envCreateR1 10).2.1
        "a1").map (fun a => (a.firestoreId, a.syncStatus)) =
      some (some "r1", some SyncStatus.pending)) := by
  refine ⟨rfl, ?_, rfl, rfl⟩
  decide

/-- Claim C2: the spec requires a max-retries eviction to mark the local
record with sync state error and a last-sync-attempt stamp.  The code only
removes the operation and counts the failure (`markSyncError` is never
called): after `opDelTwo` (two prior attempts, `maxRetries = 3`) fails its
final attempt, the queue is empty and `failedCount = 1`, but the record
still has sync state pending and no last-sync-attempt stamp. -/
theorem c2_max_retries_eviction_leaves_record_untouched :
    ((syncPendingOperations sRetryTwo envAllFail 10
        (fun _ => [])).2.1.syncQueue = []) ∧
    ((syncPendingOperations sRetryTwo envAllFail 10
        (fun _ => [])).1.failedCount = 1) ∧
    ((idbGet (syncPendingOperations sRetryTwo envAllFail 10
          (fun _ => [])).2.1.db "a1").map
        (fun a => (a.syncStatus, a.lastSyncAttempt)) =
      some (some SyncStatus.pending, none)) := by
  exact ⟨rfl, rfl, rfl⟩

/-- Claim C3 counterexample: updating the already-synced record `"a1"` while
offline performs no remote write (no adapter calls) yet leaves its sync state
synced — it is not reset to pending, refuting the claimed invariant. -/
theorem c3_counterexample :
    ((updateActivitySvc sSyncedOffline "a1" uStatus 10 "q1" envAllFail).map
        (fun r => (r.1.syncStatus, r.2.2)) =
      some (some SyncStatus.synced, [])) ∧
    ((updateActivitySvc sSyncedOffline "a1" uStatus 10 "q1" envAllFail).map
        (fun r => r.1.syncStatus) ≠ some (some SyncStatus.pending)) := by
  refine ⟨rfl, ?_⟩
  decide

/-- Claim C3 (amended): `updateActivity` never touches the record's sync
state — whenever the caller's partial update does not itself set
`syncStatus`, the record returned by the call (in every online/offline,
success/failure branch) keeps the pre-update sync state, so a synced record
mutated offline stays synced and the claimed iff-invariant fails. -/
theorem c3_update_preserves_syncStatus (s : SysState) (id : String)
    (u : ActivityUpdate) (now : Nat) (freshOpId : String) (env : AdapterEnv)
    (a : Activity) (hu : u.syncStatus = none) (ha : idbGet s.db id = some a) :
    (updateActivitySvc s id u now freshOpId env).map
      (fun r => r.1.syncStatus) = some a.syncStatus := by
  have hm := mergeActivity_syncStatus_of_none a u now hu
  simp only [updateActivitySvc, idbUpdateActivity, ha]
  split
  · split
    · split <;> simp [hm]
    · simp [hm]
  · simp [hm]

/-- Witness for C3 (amended) at the concrete offline state. -/
theorem c3_witness :
    uStatus.syncStatus = none ∧
      idbGet sSyncedOffline.db "a1" = some actSynced ∧
      (updateActivitySvc sSyncedOffline "a1" uStatus 10 "q1" envAllFail).map
        (fun r => r.1.syncStatus) = some actSynced.syncStatus :=
  ⟨rfl, rfl,
    c3_update_preserves_syncStatus sSyncedOffline "a1" uStatus 10 "q1"
      envAllFail actSynced rfl rfl⟩

/-- Claim C5: an `updateActivity` call on a record whose merged result has no
remote identifier enqueues exactly one operation, of kind `create` (never
`update`), online or offline alike. -/
theorem c5_update_without_remote_id_enqueues_create (s : SysState)
    (id : String) (u : ActivityUpdate) (now : Nat) (freshOpId : String)
    (env : AdapterEnv) (a : Activity)
    (ha : idbGet s.db id = some a)
    (hfid : (mergeActivity a u now).firestoreId = none) :
    (updateActivitySvc s id u now freshOpId env).map
        (fun r => r.2.1.syncQueue) =
      some (s.syncQueue ++
        [{ id := freshOpId, type := OpType.create, activityId := id,
           activityData := some (mergeActivity a u now), firestoreId := none,
           timestamp := now, attempts := 0, lastError := none }]) := by
  simp only [updateActivitySvc, idbUpdateActivity, ha]
  split
  · simp only [hfid]
    simp [addToSyncQueue]
  · simp only [hfid, Option.isSome_none, Bool.false_eq_true, if_false]
    simp [addToSyncQueue, hfid]

/-- Witness for C5 at the concrete online state with a never-synced record. -/
theorem c5_witness :
    idbGet sLocalOnly.db "a1" = some actPending ∧
      (mergeActivity actPending uStatus 10).firestoreId = none ∧
      (updateActivitySvc sLocalOnly "a1" uStatus 10 "q1" envAllFail).map
          (fun r => r.2.1.syncQueue) =
        some (sLocalOnly.syncQueue ++
          [{ id := "q1", type := OpType.create, activityId := "a1",
             activityData := some (mergeActivity actPending uStatus 10),
             firestoreId := none, timestamp := 10, attempts := 0,
             lastError := none }]) :=
  ⟨rfl, rfl,
    c5_update_without_remote_id_enqueues_create sLocalOnly "a1" uStatus 10
      "q1" envAllFail actPending rfl rfl⟩

/-- Claim C6: `deleteActivity` removes the local record unconditionally —
after the call the store no longer resolves the id, whatever the online
state or adapter outcome — and when the record has no remote identifier the
call enqueues nothing and performs zero adapter calls. -/
theorem c6_delete_unconditional_and_noop_without_remote_id (s : SysState)
    (id : String) (now : Nat) (freshOpId : String) (env : AdapterEnv) :
    idbGet (deleteActivitySvc s id now freshOpId env).1.db id = none ∧
      ((idbGet s.db id).bind (fun a => a.firestoreId) = none →
        (deleteActivitySvc s id now freshOpId env).1.syncQueue =
            s.syncQueue ∧
          (deleteActivitySvc s id now freshOpId env).2 = []) := by
  constructor
  · exact idbGet_idbDelete_self _ id
  · intro hnone
    simp only [deleteActivitySvc, hnone]
    cases s.online <;> simp

/-- Witness for C6 at the concrete never-synced record. -/
theorem c6_witness :
    ((idbGet sLocalOnly.db "a1").bind (fun a => a.firestoreId) = none) ∧
      idbGet (deleteActivitySvc sLocalOnly "a1" 10 "q1" envAllFail).1.db "a1"
          = none ∧
      (deleteActivitySvc sLocalOnly "a1" 10 "q1" envAllFail).1.syncQueue =
          sLocalOnly.syncQueue ∧
      (deleteActivitySvc sLocalOnly "a1" 10 "q1" envAllFail).2 = [] := by
  have h := c6_delete_unconditional_and_noop_without_remote_id sLocalOnly
    "a1" 10 "q1" envAllFail
  exact ⟨rfl, h.1, (h.2 rfl).1, (h.2 rfl).2⟩

/-- Claim C9: a drain pass dispatches exactly the queue snapshot taken at
pass start, in FIFO order (the dispatched ids are the snapshot's ids in
order, so operations injected during the pass are not dispatched), and the
surviving snapshot operations keep their relative order in the resulting
queue even under partial failure. -/
theorem c9_drain_snapshot_fifo (s : SysState) (env : AdapterEnv) (now : Nat)
    (inject : Nat → List SyncOp)
    (hs : s.isSyncing = false) (hon : s.online = true)
    (hq : s.syncQueue ≠ [])
    (hinj : ∀ k op', op' ∈ inject k →
      ((s.syncQueue.map (fun o => o.id)).contains op'.id) = false) :
    (syncPendingOperations s env now inject).2.2.2 =
        s.syncQueue.map (fun o => o.id) ∧
      List.Sublist
        (((syncPendingOperations s env now inject).2.1.syncQueue.map
            (fun o => o.id)).filter
          (fun i => (s.syncQueue.map (fun o => o.id)).contains i))
        (s.syncQueue.map (fun o => o.id)) := by
  have hguard : ¬((s.isSyncing || !s.online || s.syncQueue.isEmpty) = true) := by
    simp [hs, hon, hq]
  unfold syncPendingOperations
  rw [if_neg hguard]
  unfold drainPass
  constructor
  · dsimp only
    rw [drainGo_dispatched]
    simp
  · dsimp only
    have h1 := drainGo_queue_ids_filter_sublist s.maxRetries env now inject
      (fun i => (s.syncQueue.map (fun o => o.id)).contains i)
      (fun k op' h => hinj k op' h) s.syncQueue 0
      { queue := s.syncQueue
        db := s.db
        res := { success := true, syncedCount := 0, failedCount := 0,
                 errors := [] }
        calls := []
        dispatched := [] }
    exact h1.trans (List.filter_sublist _)

/-- Witness for C9 at the concrete one-operation queue with no injections. -/
theorem c9_witness :
    (syncPendingOperations sRetryZero envAllFail 10 (fun _ => [])).2.2.2 =
        sRetryZero.syncQueue.map (fun o => o.id) ∧
      List.Sublist
        (((syncPendingOperations sRetryZero envAllFail 10
            (fun _ => [])).2.1.syncQueue.map (fun o => o.id)).filter
          (fun i => (sRetryZero.syncQueue.map (fun o => o.id)).contains i))
        (sRetryZero.syncQueue.map (fun o => o.id)) :=
  c9_drain_snapshot_fifo sRetryZero envAllFail 10 (fun _ => []) rfl rfl
    (by decide) (fun k op' h => absurd h (List.not_mem_nil op'))

/-- Claim C10: the drain result's success flag is true exactly when
`failedCount` is zero, and a pass in which every snapshot operation fails
below the retry limit contributes to neither counter, reporting
`{success: true, syncedCount: 0, failedCount: 0}`. -/
theorem c10_drain_result_counts :
    (∀ (s : SysState) (env : AdapterEnv) (now : Nat)
        (inject : Nat → List SyncOp),
      (syncPendingOperations s env now inject).1.success =
        ((syncPendingOperations s env now inject).1.failedCount == 0)) ∧
    (∀ (s : SysState) (env : AdapterEnv) (now : Nat)
        (inject : Nat → List SyncOp),
      (∀ op ∈ s.syncQueue,
        (processSyncOperation s.db op env now).1 ≠ ProcResult.ok true ∧
          op.attempts + 1 < s.maxRetries) →
      (syncPendingOperations s env now inject).1.syncedCount = 0 ∧
        (syncPendingOperations s env now inject).1.failedCount = 0 ∧
        (syncPendingOperations s env now inject).1.success = true) := by
  constructor
  · intro s env now inject
    unfold syncPendingOperations
    split
    · rfl
    · have hsucc : (drainPass s env now inject).res.success = true := by
        unfold drainPass
        rw [drainGo_success]
      dsimp only
      split
      · rename_i hpos
        cases hfc : (drainPass s env now inject).res.failedCount with
        | zero => rw [hfc] at hpos; omega
        | succ n => simp [hfc]
      · rename_i hneg
        have h0 : (drainPass s env now inject).res.failedCount = 0 := by
          omega
        rw [h0, hsucc]
        rfl
  · intro s env now inject hall
    unfold syncPendingOperations
    split
    · exact ⟨rfl, rfl, rfl⟩
    · have hgo := drainGo_all_fail s.maxRetries env now inject s.db
        s.syncQueue 0
        { queue := s.syncQueue
          db := s.db
          res := { success := true, syncedCount := 0, failedCount := 0,
                   errors := [] }
          calls := []
          dispatched := [] } rfl hall
      have hres : (drainPass s env now inject).res =
          { success := true, syncedCount := 0, failedCount := 0,
            errors := [] } := by
        unfold drainPass
        exact hgo.1
      refine ⟨?_, ?_, ?_⟩ <;> simp [hres]

/-- Witness for C10 at the concrete all-failing one-operation queue. -/
theorem c10_witness :
    ((syncPendingOperations sRetryZero envAllFail 10 (fun _ => [])).1.success =
      ((syncPendingOperations sRetryZero envAllFail 10
        (fun _ => [])).1.failedCount == 0)) ∧
      ((syncPendingOperations sRetryZero envAllFail 10
          (fun _ => [])).1.syncedCount = 0 ∧
        (syncPendingOperations sRetryZero envAllFail 10
          (fun _ => [])).1.failedCount = 0 ∧
        (syncPendingOperations sRetryZero envAllFail 10
          (fun _ => [])).1.success = true) :=
  ⟨c10_drain_result_counts.1 sRetryZero envAllFail 10 (fun _ => []),
    c10_drain_result_counts.2 sRetryZero envAllFail 10 (fun _ => [])
      (by decide)⟩
